import Mathlib

/-!
Shallow embedding of `src/engine/stockfish.ts` (class `StockfishEngine`).

The class is an event-driven session supervisor for a UCI chess-engine
worker.  We model its mutable instance fields as a `Session` record, and
the surrounding JavaScript runtime facts the code depends on (which
workers are alive, which `setTimeout` timers are pending, which
handshake listeners are attached and what their closures captured,
the log of `postMessage` calls, how many times the init promise's
`resolve` has been invoked) as a `World` record.  Every method of the
class becomes a pure `World → World` (or value-returning) function, and
the asynchronous callbacks (`setTimeout` firing, worker `error` events,
worker `message` events) become explicit events of a step function, so a
session execution is a fold of `step` over an event trace.  JavaScript
numbers that the code floors are modelled as `ℚ`; machine strings as
`String`.

Naming note: the source method `initialize` is modelled by `initCall`,
and the inner helper `initializeWorker` by `launchWorker`.
-/

/-- Result record of a search, from the source type `BestMove`
(`move: string; ponder?: string`).  `move` is `Option` because the
source builds it as `parts[1]`, which can be `undefined`. -/
structure BestMove where
  move : Option String
  ponder : Option String
deriving DecidableEq

/-- JavaScript whitespace characters relevant to `\s` for the protocol
text lines handled here. -/
def isWsChar (c : Char) : Bool :=
  c == ' ' || c == '\t' || c == '\n' || c == '\r'

/-- Character-level splitter: groups a character list into the maximal
runs lying between separator characters, keeping empty groups exactly
where JavaScript `split` would produce empty strings. -/
def splitRuns (p : Char → Bool) : List Char → List (List Char)
  | [] => [[]]
  | c :: cs =>
      match splitRuns p cs with
      | [] => [[]]
      | g :: gs => if p c then [] :: g :: gs else (c :: g) :: gs

/-- Model of `text.trim().split(/\s+/)`: trimming then splitting on
whitespace runs yields exactly the nonempty whitespace-separated
tokens, so we split into runs and drop the empty groups. -/
def tokenize (text : String) : List String :=
  ((splitRuns isWsChar text.data).map (fun g => String.mk g)).filter (fun s => s != "")

/-- `startsWithChars pat s`: the character list `s` begins with `pat`. -/
def startsWithChars : List Char → List Char → Bool
  | [], _ => true
  | _ :: _, [] => false
  | c :: cs, d :: ds => c == d && startsWithChars cs ds

/-- Model of JavaScript `text.includes(pat)` (substring test). -/
def includesChars (pat : List Char) : List Char → Bool
  | [] => pat.isEmpty
  | c :: cs => startsWithChars pat (c :: cs) || includesChars pat cs

/-- Model of JavaScript `text.includes(pat)` on strings. -/
def includesText (text pat : String) : Bool :=
  includesChars pat.data text.data

/-- Model of JavaScript `text.startsWith(pat)` on strings. -/
def startsWithText (text pat : String) : Bool :=
  startsWithChars pat.data text.data

/-- The ponder field computed by the `onMessage` handler of
`getBestMove` (source lines 90–93): `parts.indexOf('ponder') !== -1`
becomes `indexOf < length`, and the truthiness test
`parts[ponderIdx + 1]` becomes "present and nonempty". -/
def ponderVal (text : String) : Option String :=
  if (tokenize text).indexOf "ponder" < (tokenize text).length then
    match (tokenize text)[(tokenize text).indexOf "ponder" + 1]? with
    | some p => if p == "" then none else some p
    | none => none
  else none

/-- Model of the `onMessage` handler body inside `getBestMove`
(source lines 83–97): `none` means the handler returns without
resolving; `some bm` means it resolves the search promise with `bm`
(built as `{ move: parts[1], ponder: … }`). -/
def parseBestMove (text : String) : Option BestMove :=
  if text == "" then none
  else if startsWithText text "bestmove" then
    some { move := (tokenize text)[1]?, ponder := ponderVal text }
  else none

/-- The value stored (and transmitted) by `setSkillLevel`:
`Math.max(0, Math.min(20, Math.floor(level)))`. -/
def skillStored (level : ℚ) : Int :=
  max 0 (min 20 ⌊level⌋)

/-- The value transmitted by `setHashSize`:
`Math.max(16, Math.min(4096, Math.floor(mb)))`. -/
def hashClamped (mb : ℚ) : Int :=
  max 16 (min 4096 ⌊mb⌋)

/-- The optional second argument of `getBestMove`. -/
structure GoOptions where
  movetimeMs : Option Int := none
  depth : Option Int := none
deriving DecidableEq

/-- JavaScript truthiness of `options?.depth`: present and nonzero. -/
def depthTruthy (options : Option GoOptions) : Option Int :=
  match options with
  | some o =>
      match o.depth with
      | some d => if d != 0 then some d else none
      | none => none
  | none => none

/-- `options?.movetimeMs ?? 500`. -/
def movetimeOf (options : Option GoOptions) : Int :=
  match options with
  | some o => o.movetimeMs.getD 500
  | none => 500

/-- The `go …` command sent by `getBestMove` (source lines 103–109):
`if (options?.depth) go depth …` else `go movetime …`. -/
def goCommand (options : Option GoOptions) : String :=
  match depthTruthy options with
  | some d => "go depth " ++ toString d
  | none => "go movetime " ++ toString (movetimeOf options)

/-- The mutable instance fields of `StockfishEngine`.  `worker` holds
the id of the current worker (`none` = JS `null`); `pendingInit` holds
the identity of the memoized init promise. -/
structure Session where
  worker : Option Nat
  isReady : Bool
  pendingInit : Option Nat
  currentSkillLevel : Int
  isSingleThreaded : Bool
deriving DecidableEq

/-- A handshake listener pair (`handleMessage` + `handleError`) attached
by one `initializeWorker` call, with the closure values it captured:
the `singleThreaded` flag of that launch and the `timeout` handle it
would clear on `readyok`. -/
structure Listener where
  workerId : Nat
  single : Bool
  timerId : Nat
deriving DecidableEq

/-- The session together with the runtime facts its callbacks depend
on.  `alive` lists workers not yet terminated (a terminated worker
delivers no further events); `timers` lists pending `setTimeout`
handles with the `singleThreaded` flag captured by their callback;
`launches` logs each `new Worker(scriptUrl)` with that launch's
`singleThreaded` flag; `sent` logs every `postMessage`;
`resolveCount` counts calls to the init promise's `resolve`. -/
structure World where
  session : Session
  cores : Nat
  alive : List Nat
  listeners : List Listener
  timers : List (Nat × Bool)
  nextId : Nat
  launches : List (String × Bool)
  sent : List (Nat × String)
  resolveCount : Nat
  nextPromise : Nat
deriving DecidableEq

def primaryUrl : String := "/stockfish/stockfish-nnue-16.js"

def fallbackUrl : String := "/stockfish/stockfish-nnue-16-single.js"

/-- `singleThreaded ? 1 : Math.max(1, Math.min(cores, 8))`. -/
def threadsFor (cores : Nat) (single : Bool) : Nat :=
  if single then 1 else max 1 (min cores 8)

/-- The command sequence posted at the end of `initializeWorker`
(source lines 59–66). -/
def launchCommands (wk : Nat) (threads : Nat) (skill : Int) : List (Nat × String) :=
  [(wk, "uci"), (wk, "ucinewgame"),
   (wk, "setoption name Threads value " ++ toString threads),
   (wk, "setoption name Skill Level value " ++ toString skill),
   (wk, "setoption name Ponder value false")]

/-- `if (this.worker) { this.worker.terminate(); this.worker = null; }` -/
def terminateCurrent (w : World) : World :=
  match w.session.worker with
  | some wk =>
      { w with
        session := { w.session with worker := none },
        alive := w.alive.erase wk }
  | none => w

/-- Model of the inner `initializeWorker(scriptUrl, singleThreaded)`
(source lines 19–67): terminate any current worker, create a fresh one,
set `isSingleThreaded`, start the 2500 ms timer (whose callback captured
this launch's `singleThreaded` flag), attach the handshake listeners,
and post the kick-off command sequence.  The fresh worker id and its
timer handle both use `nextId`. -/
def launchWorker (w : World) (scriptUrl : String) (single : Bool) : World :=
  let w1 := terminateCurrent w
  let wk := w1.nextId
  { w1 with
    session := { w1.session with worker := some wk, isSingleThreaded := single },
    alive := w1.alive ++ [wk],
    listeners := w1.listeners ++ [⟨wk, single, wk⟩],
    timers := w1.timers ++ [(wk, single)],
    nextId := w1.nextId + 1,
    launches := w1.launches ++ [(scriptUrl, single)],
    sent := w1.sent ++ launchCommands wk (threadsFor w1.cores single) w1.session.currentSkillLevel }

/-- Model of the public `initialize()` (source lines 15–74): if
`pendingInit` exists return it unchanged (memoization), otherwise
create the promise and launch the primary variant.  Returns the new
world together with the identity of the promise the caller observes. -/
def initCall (w : World) : World × Nat :=
  match w.session.pendingInit with
  | some p => (w, p)
  | none =>
      let p := w.nextPromise
      let w1 := { w with
        session := { w.session with pendingInit := some p },
        nextPromise := w.nextPromise + 1 }
      (launchWorker w1 primaryUrl false, p)

/-- A pending 2500 ms timer `t` fires (source lines 27–32): the timer is
consumed, and if `!this.isReady && !singleThreaded` (the flag captured
at the launch that armed this timer) the fallback variant is launched. -/
def fireTimer (w : World) (t : Nat) : World :=
  match w.timers.find? (fun q => q.1 == t) with
  | none => w
  | some q =>
      let w1 := { w with timers := w.timers.filter (fun r => r.1 != t) }
      if !w1.session.isReady && !q.2 then launchWorker w1 fallbackUrl true else w1

/-- A worker `error` event on worker `wk` (source lines 34–38): only
delivered if `wk` is alive and still has its handshake listener; then if
the captured `singleThreaded` flag is false, the fallback is launched. -/
def fireError (w : World) (wk : Nat) : World :=
  if w.alive.contains wk then
    match w.listeners.find? (fun l => l.workerId == wk) with
    | some l => if !l.single then launchWorker w fallbackUrl true else w
    | none => w
  else w

/-- A worker `message` event on worker `wk` during the handshake
(source lines 40–53): `uciok` triggers the `isready` probe; `readyok`
clears the captured timer, marks readiness, detaches the listeners and
resolves the init promise; anything else is ignored. -/
def fireMessage (w : World) (wk : Nat) (text : String) : World :=
  if w.alive.contains wk then
    match w.listeners.find? (fun l => l.workerId == wk) with
    | some l =>
        if text == "" then w
        else if includesText text "uciok" then
          { w with sent := w.sent ++ [(wk, "isready")] }
        else if includesText text "readyok" then
          { w with
            session := { w.session with isReady := true },
            timers := w.timers.filter (fun r => r.1 != l.timerId),
            listeners := w.listeners.filter (fun m => m.workerId != wk),
            resolveCount := w.resolveCount + 1 }
        else w
    | none => w
  else w

/-- Model of `dispose()` (source lines 132–139): guarded by
`if (this.worker)`; terminates the worker and nulls `worker`,
`isReady`, `pendingInit`.  It does not touch `isSingleThreaded` or
`currentSkillLevel`. -/
def dispose (w : World) : World :=
  match w.session.worker with
  | some wk =>
      { w with
        session := { w.session with worker := none, isReady := false, pendingInit := none },
        alive := w.alive.erase wk }
  | none => w

/-- Model of `setSkillLevel(level)` (source lines 113–118): always
stores the floored-and-clamped value; transmits it only when a worker
exists and the session is ready. -/
def setSkillLevelCall (w : World) (level : ℚ) : World :=
  let v := skillStored level
  let w1 := { w with session := { w.session with currentSkillLevel := v } }
  match w1.session.worker with
  | some wk =>
      if w1.session.isReady then
        { w1 with sent := w1.sent ++ [(wk, "setoption name Skill Level value " ++ toString v)] }
      else w1
  | none => w1

/-- Model of `setHashSize(mb)` (source lines 120–125): computes the
floored-and-clamped value and transmits it only when a worker exists
and the session is ready; nothing is stored. -/
def setHashSizeCall (w : World) (mb : ℚ) : World :=
  let v := hashClamped mb
  match w.session.worker with
  | some wk =>
      if w.session.isReady then
        { w with sent := w.sent ++ [(wk, "setoption name Hash value " ++ toString v)] }
      else w
  | none => w

/-- Error taxonomy of the spec (§7) used to state the error-handling
claims. -/
inductive EngineError
  | engineUnavailable
  | protocolError
deriving DecidableEq

/-- Model of the guard `if (!this.worker) throw new Error('Stockfish
worker failed to initialize')` at the top of `getBestMove` (source
line 78), reached after the transparent init attempt. -/
def getBestMoveGuard (w : World) : Except EngineError World :=
  match w.session.worker with
  | none => Except.error EngineError.engineUnavailable
  | some _ => Except.ok w

/-- The two commands `getBestMove` posts once past its guard (source
lines 102–109): the position command followed by the search command. -/
def getBestMoveSend (w : World) (fen : String) (options : Option GoOptions) : World :=
  match w.session.worker with
  | some wk =>
      { w with sent := w.sent ++ [(wk, "position fen " ++ fen), (wk, goCommand options)] }
  | none => w

/-- The asynchronous events a session execution interleaves with its
method calls. -/
inductive Event where
  | callInit
  | timer (t : Nat)
  | chanErr (wk : Nat)
  | msg (wk : Nat) (text : String)
  | disp
deriving DecidableEq

def step (w : World) (e : Event) : World :=
  match e with
  | Event.callInit => (initCall w).1
  | Event.timer t => fireTimer w t
  | Event.chanErr wk => fireError w wk
  | Event.msg wk text => fireMessage w wk text
  | Event.disp => dispose w

def run (w : World) (es : List Event) : World :=
  es.foldl step w

/-- Field defaults of a freshly constructed `StockfishEngine`. -/
def initialSession : Session :=
  { worker := none, isReady := false, pendingInit := none,
    currentSkillLevel := 20, isSingleThreaded := false }

/-- A fresh world: a new engine instance in a runtime reporting `cores`
hardware threads, before any call or event. -/
def initWorld (cores : Nat) : World :=
  { session := initialSession, cores := cores, alive := [], listeners := [],
    timers := [], nextId := 0, launches := [], sent := [], resolveCount := 0,
    nextPromise := 0 }

/-- A world in which the handshake has completed on the primary worker:
the session was initialized and worker 0 answered `uciok` then
`readyok`. -/
def readyWorld : World :=
  run (initWorld 2) [Event.callInit, Event.msg 0 "uciok", Event.msg 0 "readyok"]

/-! ## Helper lemmas -/

/-- Every token produced by `tokenize` is nonempty. -/
theorem tokenize_ne_empty {text : String} {s : String} (h : s ∈ tokenize text) : s ≠ "" := by
  unfold tokenize at h
  have hb := List.of_mem_filter h
  simpa using hb

/-- Destructor for a resolving `onMessage` run: the resolved record is
built from `parts[1]` and the ponder computation. -/
theorem parseBestMove_some {text : String} {bm : BestMove}
    (h : parseBestMove text = some bm) :
    bm.move = (tokenize text)[1]? ∧ bm.ponder = ponderVal text := by
  unfold parseBestMove at h
  split at h
  · simp at h
  · split at h
    · injection h with h
      subst h
      exact ⟨rfl, rfl⟩
    · simp at h

/-- If the token list has a first occurrence of `ponder` followed by a
token `p`, the ponder computation returns `p`. -/
theorem ponderVal_first_occurrence {text : String} {l₁ : List String} {p : String}
    {l₂ : List String} (ht : tokenize text = l₁ ++ "ponder" :: p :: l₂)
    (hnm : "ponder" ∉ l₁) : ponderVal text = some p := by
  have hp : p ∈ tokenize text := by rw [ht]; simp
  have hpne : p ≠ "" := tokenize_ne_empty hp
  unfold ponderVal
  rw [ht, List.indexOf_append_of_not_mem hnm, List.indexOf_cons_self]
  have hlt : l₁.length + 0 < (l₁ ++ "ponder" :: p :: l₂).length := by
    simp [List.length_append]
  rw [if_pos hlt]
  have hget : (l₁ ++ "ponder" :: p :: l₂)[l₁.length + 0 + 1]? = some p := by
    rw [List.getElem?_append_right (by omega)]
    have : l₁.length + 0 + 1 - l₁.length = 1 := by omega
    rw [this]
    simp
  rw [hget]
  simp [hpne]

/-- If the token list has no `ponder` token, the ponder computation
returns nothing. -/
theorem ponderVal_not_mem {text : String} (h : "ponder" ∉ tokenize text) :
    ponderVal text = none := by
  unfold ponderVal
  rw [List.indexOf_of_not_mem h]
  simp

/-- If the only `ponder` token is the last token, the ponder computation
returns nothing. -/
theorem ponderVal_last {text : String} {l₁ : List String}
    (ht : tokenize text = l₁ ++ ["ponder"]) (hnm : "ponder" ∉ l₁) :
    ponderVal text = none := by
  unfold ponderVal
  rw [ht, List.indexOf_append_of_not_mem hnm, List.indexOf_cons_self]
  have hlt : l₁.length + 0 < (l₁ ++ ["ponder"]).length := by
    simp [List.length_append]
  rw [if_pos hlt]
  have hget : (l₁ ++ ["ponder"])[l₁.length + 0 + 1]? = none := by
    apply List.getElem?_eq_none
    simp [List.length_append]
  rw [hget]

/-- The commands transmitted by `setSkillLevel` on a ready session. -/
theorem setSkill_sent (w : World) (q : ℚ) (wk : Nat) (hw : w.session.worker = some wk)
    (hr : w.session.isReady = true) :
    (setSkillLevelCall w q).sent =
      w.sent ++ [(wk, "setoption name Skill Level value " ++ toString (skillStored q))] := by
  unfold setSkillLevelCall
  simp [hw, hr]

/-- The commands transmitted by `setHashSize` on a ready session. -/
theorem setHash_sent (w : World) (q : ℚ) (wk : Nat) (hw : w.session.worker = some wk)
    (hr : w.session.isReady = true) :
    (setHashSizeCall w q).sent =
      w.sent ++ [(wk, "setoption name Hash value " ++ toString (hashClamped q))] := by
  unfold setHashSizeCall
  simp [hw, hr]

/-- `setSkillLevel` always stores the floored-and-clamped value. -/
theorem setSkill_stores (w : World) (q : ℚ) :
    (setSkillLevelCall w q).session.currentSkillLevel = skillStored q := by
  unfold setSkillLevelCall
  cases hw : w.session.worker with
  | none => simp [hw]
  | some wk =>
      cases hr : w.session.isReady with
      | false => simp [hw, hr]
      | true => simp [hw, hr]

/-! ## Claim theorems -/

/-- C1: for every session, the init operation is memoized: if an
initialization attempt is already in flight or has completed
(`pendingInit` exists), a further call returns that same attempt's
promise and changes nothing; calling the operation twice on a fresh
session yields the same promise for both callers and exactly one
channel launch. -/
theorem C1_init_memoized :
    (∀ w p, w.session.pendingInit = some p → initCall w = (w, p)) ∧
    (initCall (initCall (initWorld 2)).1).2 = (initCall (initWorld 2)).2 ∧
    (initCall (initCall (initWorld 2)).1).1 = (initCall (initWorld 2)).1 ∧
    (initCall (initWorld 2)).1.launches.length = 1 := by
  refine ⟨?_, by decide, by decide, by decide⟩
  intro w p h
  unfold initCall
  rw [h]

/-- Witness for C1: on the concrete session where one init call is
already outstanding, a second call returns that same world and promise
`0`, launching nothing new. -/
theorem C1_init_memoized_w :
    initCall (initCall (initWorld 2)).1 = ((initCall (initWorld 2)).1, 0) :=
  C1_init_memoized.1 (initCall (initWorld 2)).1 0 (by decide)

/-- C2: the claim states a 2500 ms timer fire after the fallback
variant is already active is a no-op.  The code violates this when the
fallback was entered via a channel error: the primary launch's timer is
never cleared, and its callback tests the launch-closure flag rather
than the instance flag, so its fire terminates the active fallback
worker (worker 1) and launches the fallback variant a second time.
After readiness the fire is indeed a no-op (last conjunct). -/
theorem C2_stale_primary_timer_fires :
    ((run (initWorld 2) [Event.callInit, Event.chanErr 0]).session.isSingleThreaded = true ∧
     (run (initWorld 2) [Event.callInit, Event.chanErr 0]).session.isReady = false ∧
     (run (initWorld 2) [Event.callInit, Event.chanErr 0]).session.worker = some 1) ∧
    ((run (initWorld 2) [Event.callInit, Event.chanErr 0, Event.timer 0]).launches =
       [(primaryUrl, false), (fallbackUrl, true), (fallbackUrl, true)] ∧
     (run (initWorld 2) [Event.callInit, Event.chanErr 0, Event.timer 0]).session.worker = some 2 ∧
     (run (initWorld 2) [Event.callInit, Event.chanErr 0, Event.timer 0]).alive.contains 1 = false) ∧
    (run (initWorld 2)
        [Event.callInit, Event.chanErr 0, Event.msg 1 "uciok", Event.msg 1 "readyok",
         Event.timer 0]).launches.length = 2 := by
  decide

/-- C3: a channel error before readiness does trigger the fallback
restart (first conjunct), and the fallback's own channel error triggers
no further launch (second conjunct); but the claim that at most one
fallback transition ever occurs is violated: the stale primary timer
fires a second fallback launch (third conjunct). -/
theorem C3_error_fallback_and_second_transition :
    (run (initWorld 2) [Event.callInit, Event.chanErr 0]).launches =
      [(primaryUrl, false), (fallbackUrl, true)] ∧
    (run (initWorld 2) [Event.callInit, Event.chanErr 0, Event.chanErr 1]).launches =
      [(primaryUrl, false), (fallbackUrl, true)] ∧
    ((run (initWorld 2) [Event.callInit, Event.chanErr 0, Event.timer 0]).launches.filter
        (fun l => l.2)).length = 2 := by
  decide

/-- C4: when neither variant reaches readiness (both 2500 ms timers
expire), the init promise's `resolve` is never called, no timer remains
pending, and the promise stays outstanding: the operation hangs instead
of failing with `EngineUnavailable` — the code has no rejection path at
all. -/
theorem C4_double_timeout_hangs :
    (run (initWorld 2) [Event.callInit, Event.timer 0, Event.timer 1]).resolveCount = 0 ∧
    (run (initWorld 2) [Event.callInit, Event.timer 0, Event.timer 1]).timers = [] ∧
    (run (initWorld 2) [Event.callInit, Event.timer 0, Event.timer 1]).session.pendingInit =
      some 0 ∧
    (run (initWorld 2) [Event.callInit, Event.timer 0, Event.timer 1]).session.isReady = false := by
  decide

/-- C5: the terminating message is whitespace-tokenized and token 1 is
returned as the move; a `ponder` token that is first of its kind and
followed by another token yields that token as the ponder move; a
missing `ponder` token, or a `ponder` token with nothing after it,
yields no ponder field.  `"bestmove e7e8q"` gives move `e7e8q` with no
ponder and `"bestmove e2e4 ponder e7e5"` gives move `e2e4` with ponder
`e7e5`. -/
theorem C5_bestmove_parsing :
    parseBestMove "bestmove e7e8q" = some { move := some "e7e8q", ponder := none } ∧
    parseBestMove "bestmove e2e4 ponder e7e5" =
      some { move := some "e2e4", ponder := some "e7e5" } ∧
    (∀ text bm, parseBestMove text = some bm → bm.move = (tokenize text)[1]?) ∧
    (∀ text bm l₁ p l₂, parseBestMove text = some bm →
        tokenize text = l₁ ++ "ponder" :: p :: l₂ → "ponder" ∉ l₁ → bm.ponder = some p) ∧
    (∀ text bm, parseBestMove text = some bm → "ponder" ∉ tokenize text → bm.ponder = none) ∧
    (∀ text bm l₁, parseBestMove text = some bm →
        tokenize text = l₁ ++ ["ponder"] → "ponder" ∉ l₁ → bm.ponder = none) := by
  refine ⟨by decide, by decide, ?_, ?_, ?_, ?_⟩
  · intro text bm h
    exact (parseBestMove_some h).1
  · intro text bm l₁ p l₂ h ht hnm
    rw [(parseBestMove_some h).2]
    exact ponderVal_first_occurrence ht hnm
  · intro text bm h hnm
    rw [(parseBestMove_some h).2]
    exact ponderVal_not_mem hnm
  · intro text bm l₁ h ht hnm
    rw [(parseBestMove_some h).2]
    exact ponderVal_last ht hnm

/-- Witness for C5: the general clauses applied to the concrete message
`"bestmove e2e4 ponder e7e5"`. -/
theorem C5_bestmove_parsing_w :
    ({ move := some "e2e4", ponder := some "e7e5" } : BestMove).ponder = some "e7e5" :=
  C5_bestmove_parsing.2.2.2.1 "bestmove e2e4 ponder e7e5"
    { move := some "e2e4", ponder := some "e7e5" } ["bestmove", "e2e4"] "e7e5" []
    (by decide) (by decide) (by decide)

/-- C6: on integer inputs the stored and transmitted skill level is the
input clamped to `[0, 20]` and the transmitted hash size is the input
clamped to `[16, 4096]`; the four concrete inputs of the claim transmit
0, 20, 16 and 4096 respectively on a ready session; and no value
outside those ranges is ever produced. -/
theorem C6_clamping :
    (∀ n : Int, skillStored (n : ℚ) = max 0 (min 20 n)) ∧
    (∀ n : Int, hashClamped (n : ℚ) = max 16 (min 4096 n)) ∧
    ((setSkillLevelCall readyWorld (-5)).sent.getLast? =
       some (0, "setoption name Skill Level value 0") ∧
     (setSkillLevelCall readyWorld 99).sent.getLast? =
       some (0, "setoption name Skill Level value 20") ∧
     (setHashSizeCall readyWorld 1).sent.getLast? =
       some (0, "setoption name Hash value 16") ∧
     (setHashSizeCall readyWorld 999999).sent.getLast? =
       some (0, "setoption name Hash value 4096")) ∧
    (∀ q : ℚ, 0 ≤ skillStored q ∧ skillStored q ≤ 20) ∧
    (∀ q : ℚ, 16 ≤ hashClamped q ∧ hashClamped q ≤ 4096) ∧
    (∀ w q, (setSkillLevelCall w q).session.currentSkillLevel = skillStored q) := by
  refine ⟨?_, ?_, by decide, ?_, ?_, setSkill_stores⟩
  · intro n
    unfold skillStored
    rw [Int.floor_intCast]
  · intro n
    unfold hashClamped
    rw [Int.floor_intCast]
  · intro q
    unfold skillStored
    exact ⟨le_max_left _ _, max_le (by norm_num) (min_le_left _ _)⟩
  · intro q
    unfold hashClamped
    exact ⟨le_max_left _ _, max_le (by norm_num) (min_le_left _ _)⟩

/-- C7 counterexample: the claim says a present `options.depth` takes
precedence over `options.moveTimeMs`, but the source tests
`options?.depth` for truthiness, so the present value `depth = 0` is
ignored and a movetime search is sent instead. -/
theorem C7_depth_zero_ignored :
    goCommand (some { movetimeMs := some 1000, depth := some 0 }) = "go movetime 1000" ∧
    goCommand (some { movetimeMs := some 1000, depth := some 0 }) ≠ "go depth 0" := by
  decide

/-- C7 amended: the position command is always sent immediately before
the search command; a present and nonzero depth takes precedence over
moveTimeMs; a depth of 0 is treated as absent; with no (nonzero) depth
the movetime search uses the given moveTimeMs, defaulting to 500 when
absent. -/
theorem C7_search_command :
    (∀ w wk fen opts, w.session.worker = some wk →
        (getBestMoveSend w fen opts).sent =
          w.sent ++ [(wk, "position fen " ++ fen), (wk, goCommand opts)]) ∧
    (∀ o : GoOptions, ∀ d : Int, o.depth = some d → d ≠ 0 →
        goCommand (some o) = "go depth " ++ toString d) ∧
    (∀ o : GoOptions, o.depth = some 0 →
        goCommand (some o) = "go movetime " ++ toString (o.movetimeMs.getD 500)) ∧
    (∀ o : GoOptions, ∀ t : Int, o.depth = none → o.movetimeMs = some t →
        goCommand (some o) = "go movetime " ++ toString t) ∧
    (∀ o : GoOptions, o.depth = none → o.movetimeMs = none →
        goCommand (some o) = "go movetime 500") ∧
    goCommand none = "go movetime 500" := by
  refine ⟨?_, ?_, ?_, ?_, ?_, by decide⟩
  · intro w wk fen opts hw
    unfold getBestMoveSend
    rw [hw]
  · intro o d hd hdz
    simp [goCommand, depthTruthy, hd, hdz]
  · intro o hd
    simp [goCommand, depthTruthy, movetimeOf, hd]
  · intro o t hd ht
    simp [goCommand, depthTruthy, movetimeOf, hd, ht]
  · intro o hd ht
    simp [goCommand, depthTruthy, movetimeOf, hd, ht]
    decide

/-- Witness for C7 amended: on a concrete options record with
depth 7 the depth search command is emitted. -/
theorem C7_search_command_w :
    goCommand (some { movetimeMs := none, depth := some 7 }) = "go depth " ++ toString (7 : Int) :=
  C7_search_command.2.1 { movetimeMs := none, depth := some 7 } 7 rfl (by decide)

/-- C8 counterexample: the claim says a terminating message with no
move token makes `getBestMove` fail with `ProtocolError`, but the
handler resolves successfully: on `"bestmove"` it resolves the search
promise with a record whose move field is absent (`parts[1]` is
`undefined`), raising no error. -/
theorem C8_malformed_bestmove_resolves :
    parseBestMove "bestmove" = some { move := none, ponder := none } := by
  decide

/-- C8 amended: `getBestMove` fails with `EngineUnavailable` exactly
when the worker is still absent after the transparent init attempt
(the guard of source line 78); a terminating message with no move token
is not an error: it resolves successfully with an absent move field,
and no `ProtocolError` path exists in the code. -/
theorem C8_error_paths :
    (∀ w, w.session.worker = none →
        getBestMoveGuard w = Except.error EngineError.engineUnavailable) ∧
    (∀ w wk, w.session.worker = some wk → getBestMoveGuard w = Except.ok w) ∧
    parseBestMove "bestmove" = some { move := none, ponder := none } := by
  refine ⟨?_, ?_, by decide⟩
  · intro w hw
    unfold getBestMoveGuard
    rw [hw]
  · intro w wk hw
    unfold getBestMoveGuard
    rw [hw]

/-- Witness for C8 amended: the fresh session (worker absent) makes
the guard fail with `EngineUnavailable`. -/
theorem C8_error_paths_w :
    getBestMoveGuard (initWorld 2) = Except.error EngineError.engineUnavailable :=
  C8_error_paths.1 (initWorld 2) rfl

/-- C9 counterexample: the claim says `dispose()` clears the fallback
diagnostic, but on a session that fell back (timeout path, so
`usingSingleThreaded` is true) disposal leaves `isSingleThreaded`
set. -/
theorem C9_dispose_keeps_diagnostic :
    (run (initWorld 2) [Event.callInit, Event.timer 0]).session.isSingleThreaded = true ∧
    (run (initWorld 2) [Event.callInit, Event.timer 0]).session.worker = some 1 ∧
    (dispose (run (initWorld 2) [Event.callInit, Event.timer 0])).session.isSingleThreaded =
      true := by
  decide

/-- C9 amended: `dispose()` is safe in every state: with a live worker
it terminates it and resets `worker`, `isReady` and `pendingInit`, but
leaves the fallback diagnostic (`isSingleThreaded`) and the stored
skill level unchanged; when already disposed (no worker) it is an
idempotent no-op changing no state at all. -/
theorem C9_dispose_behavior :
    (∀ w, w.session.worker = none → dispose w = w) ∧
    (∀ w wk, w.session.worker = some wk →
        (dispose w).session.worker = none ∧
        (dispose w).session.isReady = false ∧
        (dispose w).session.pendingInit = none ∧
        (dispose w).session.isSingleThreaded = w.session.isSingleThreaded ∧
        (dispose w).session.currentSkillLevel = w.session.currentSkillLevel ∧
        (dispose w).alive = w.alive.erase wk) := by
  constructor
  · intro w hw
    unfold dispose
    rw [hw]
  · intro w wk hw
    unfold dispose
    rw [hw]
    exact ⟨rfl, rfl, rfl, rfl, rfl, rfl⟩

/-- Witness for C9 amended: disposing the fresh (already disposed)
session changes nothing. -/
theorem C9_dispose_behavior_w :
    dispose (initWorld 2) = initWorld 2 :=
  C9_dispose_behavior.1 (initWorld 2) rfl

/-- C10: non-integer inputs are floored before clamping: skill level
10.9 stores and transmits 10, hash size 100.7 transmits 100; the
stored skill level is by construction an integer and always lies in
`[0, 20]`. -/
theorem C10_floor_then_clamp :
    skillStored (10.9 : ℚ) = 10 ∧
    hashClamped (100.7 : ℚ) = 100 ∧
    (setSkillLevelCall readyWorld (10.9 : ℚ)).sent.getLast? =
      some (0, "setoption name Skill Level value 10") ∧
    (setHashSizeCall readyWorld (100.7 : ℚ)).sent.getLast? =
      some (0, "setoption name Hash value 100") ∧
    (setSkillLevelCall readyWorld (10.9 : ℚ)).session.currentSkillLevel = 10 ∧
    (∀ q : ℚ, 0 ≤ skillStored q ∧ skillStored q ≤ 20) := by
  have hs : skillStored (10.9 : ℚ) = 10 := by
    have h : ⌊(10.9 : ℚ)⌋ = 10 := by norm_num
    show max 0 (min 20 ⌊(10.9 : ℚ)⌋) = 10
    rw [h]
    decide
  have hh : hashClamped (100.7 : ℚ) = 100 := by
    have h : ⌊(100.7 : ℚ)⌋ = 100 := by norm_num
    show max 16 (min 4096 ⌊(100.7 : ℚ)⌋) = 100
    rw [h]
    decide
  refine ⟨hs, hh, ?_, ?_, ?_, ?_⟩
  · rw [setSkill_sent readyWorld (10.9 : ℚ) 0 (by decide) (by decide), hs]
    decide
  · rw [setHash_sent readyWorld (100.7 : ℚ) 0 (by decide) (by decide), hh]
    decide
  · rw [setSkill_stores, hs]
  · intro q
    unfold skillStored
    exact ⟨le_max_left _ _, max_le (by norm_num) (min_le_left _ _)⟩
